import Mathlib

/-!
# Verification of the DepthDesktop pose-and-gesture pipeline

A shallow embedding of the DepthDesktop head-tracking core:

* `_normalized_to_pixel_coordinates` — the pixel projector from
  `faceTracking.py` (normalized landmark coordinates to pixel coordinates),
  with the Python `math.isclose` boundary test modelled exactly
  (`rel_tol = 1e-9`, `abs_tol = 0`) over `ℚ`.
* `estimate` / `pixel_distance` — the pose computation from the main loop of
  `faceTracking.py` (inter-pupil distance, calibrated raw distance,
  field-of-view angles, angle-corrected depth and real-world offsets),
  over `ℝ`.
* `goingLeft` / `goingRight` / `runMids` — the per-frame horizontal gesture
  threshold checks and the `last_mid` update of the main loop.
* `frameStep` — one iteration of the per-frame pipeline: no face or an
  invalid projection or coincident pupils yield no update and leave the
  tracking state unchanged.
* `handle_tracker_update` — the gesture consumer from
  `src/DepthDesktop/app/app.py`, with its wall-clock cooldown
  (`invalidTime`) and if/elif direction dispatch.

Times are modelled in integer milliseconds, pixel coordinates as `ℤ`,
normalized coordinates as `ℚ`, and the trigonometric pose values as `ℝ`.
-/

/-! ## Pixel projector (`faceTracking.py`, `_normalized_to_pixel_coordinates`) -/

/-- Default relative tolerance of the Python `math.isclose` function (`rel_tol = 1e-9`). -/
def rel_tol : ℚ := 1 / 1000000000

/-- Default absolute tolerance of the Python `math.isclose` function (`abs_tol = 0.0`). -/
def abs_tol : ℚ := 0

/-- The Python call `math.isclose(a, b)` with default tolerances:
`abs(a-b) <= max(rel_tol * max(abs(a), abs(b)), abs_tol)`. -/
def isclose (a b : ℚ) : Bool :=
  decide (|a - b| ≤ max (rel_tol * max |a| |b|) abs_tol)

/-- The inner validity test of `_normalized_to_pixel_coordinates`:
`(value > 0 or math.isclose(0, value)) and (value < 1 or math.isclose(1, value))`. -/
def is_valid_normalized_value (value : ℚ) : Bool :=
  (decide (value > 0) || isclose 0 value) && (decide (value < 1) || isclose 1 value)

/-- `_normalized_to_pixel_coordinates` from `faceTracking.py`: rejects a
coordinate pair when either axis fails the validity test, otherwise maps each
axis by `min(floor(normalized * dimension), dimension - 1)`. -/
def _normalized_to_pixel_coordinates (normalized_x normalized_y : ℚ)
    (image_width image_height : ℤ) : Option (ℤ × ℤ) :=
  if is_valid_normalized_value normalized_x && is_valid_normalized_value normalized_y then
    some (min ⌊normalized_x * (image_width : ℚ)⌋ (image_width - 1),
          min ⌊normalized_y * (image_height : ℚ)⌋ (image_height - 1))
  else
    none

/-! ## Horizontal gesture thresholds (`faceTracking.py` main loop) -/

/-- The `"Going left"` condition: `last_mid[0] - mid_px[0] > 15`. -/
def goingLeft (last_mid mid_px : ℤ × ℤ) : Bool :=
  decide (last_mid.1 - mid_px.1 > 15)

/-- The `"Going right"` condition: `last_mid[0] - mid_px[0] < -15`. -/
def goingRight (last_mid mid_px : ℤ × ℤ) : Bool :=
  decide (last_mid.1 - mid_px.1 < -15)

/-- Feed a sequence of valid-frame midpoints through the gesture
logic of the main loop: the pair of emitted flags for each frame is computed against `last_mid`, and
`last_mid` is then set to the current midpoint (`last_mid = mid_px`). -/
def runMids (last_mid : ℤ × ℤ) : List (ℤ × ℤ) → List (Bool × Bool)
  | [] => []
  | mid :: mids => (goingLeft last_mid mid, goingRight last_mid mid) :: runMids mid mids

/-- Every consecutive-frame midpoint delta on the x axis (starting against
`last_mid`) is at most 15 pixels in absolute value. -/
def smallDeltas (last_mid : ℤ × ℤ) : List (ℤ × ℤ) → Bool
  | [] => true
  | mid :: mids => decide (|last_mid.1 - mid.1| ≤ 15) && smallDeltas mid mids

/-! ## Pose estimator (`faceTracking.py` main loop) -/

/-- `math.hypot(left_px[0] - right_px[0], left_px[1] - right_px[1])`. -/
noncomputable def pixel_distance (left_px right_px : ℤ × ℤ) : ℝ :=
  Real.sqrt (((left_px.1 - right_px.1 : ℤ) : ℝ) ^ 2 + ((left_px.2 - right_px.2 : ℤ) : ℝ) ^ 2)

/-- The per-frame pose values computed by the main loop of `faceTracking.py`. -/
structure PoseEstimate where
  raw_distance : ℝ
  mid : ℤ × ℤ
  angleX : ℝ
  angleY : ℝ
  rad_x : ℝ
  rad_y : ℝ
  corrected_z_depth : ℝ
  real_x : ℝ
  real_y : ℝ
  real_z : ℝ

/-- The pose computation of the main loop, verbatim:
`raw_distance = 327 / pixel_distance`, integer midpoint via the truncating
Python conversion `int((a + b) / 2)`, field-of-view angles
`angleX = 35 - (mid_x / width) * 70` and `angleY = 22 - (mid_y / height) * 44`,
radians conversion, `corrected_z_depth = raw_distance / (cos(rad_x) * cos(rad_y))`,
`real_x = -1 * corrected_z_depth * tan(rad_x)`,
`real_y = corrected_z_depth * tan(rad_y)`, `real_z = corrected_z_depth`. -/
noncomputable def estimate (left_px right_px : ℤ × ℤ) (width height : ℤ) : PoseEstimate :=
  let raw_distance := 327 / pixel_distance left_px right_px
  let mid_x := Int.tdiv (left_px.1 + right_px.1) 2
  let mid_y := Int.tdiv (left_px.2 + right_px.2) 2
  let angleX := 35 - ((mid_x : ℝ) / (width : ℝ)) * 70
  let angleY := 22 - ((mid_y : ℝ) / (height : ℝ)) * 44
  let rad_x := angleX * (Real.pi / 180)
  let rad_y := angleY * (Real.pi / 180)
  let corrected_z_depth := raw_distance / (Real.cos rad_x * Real.cos rad_y)
  { raw_distance := raw_distance
    mid := (mid_x, mid_y)
    angleX := angleX
    angleY := angleY
    rad_x := rad_x
    rad_y := rad_y
    corrected_z_depth := corrected_z_depth
    real_x := -1 * corrected_z_depth * Real.tan rad_x
    real_y := corrected_z_depth * Real.tan rad_y
    real_z := corrected_z_depth }

/-! ## Per-frame pipeline (`faceTracking.py` main loop) -/

/-- A normalized landmark point as delivered by the detector. -/
structure NormPoint where
  x : ℚ
  y : ℚ
deriving DecidableEq

/-- The two pupil-center landmarks of the first detected face
(indices 468 and 473). -/
structure Face where
  right_pupil : NormPoint
  left_pupil : NormPoint
deriving DecidableEq

/-- The cross-frame tracking state of the main loop: `last_mid`. -/
structure TrackState where
  last_mid : ℤ × ℤ
deriving DecidableEq

/-- What a processed frame displays: the pose values and the two horizontal
gesture flags. -/
structure FrameOut where
  pose : PoseEstimate
  going_left : Bool
  going_right : Bool

open Classical in
/-- One iteration of the main loop, given the detector output for the frame
(`none` when no face was detected): project both pupils, skip the frame when
either projection is invalid, skip it when the inter-pupil distance is zero,
and otherwise emit the pose and gesture flags and set `last_mid` to the new
midpoint. -/
noncomputable def frameStep (width height : ℤ) (s : TrackState) (det : Option Face) :
    TrackState × Option FrameOut :=
  match det with
  | none => (s, none)
  | some f =>
    match _normalized_to_pixel_coordinates f.right_pupil.x f.right_pupil.y width height,
          _normalized_to_pixel_coordinates f.left_pupil.x f.left_pupil.y width height with
    | some right_px, some left_px =>
      if 0 < pixel_distance left_px right_px then
        let e := estimate left_px right_px width height
        (⟨e.mid⟩, some ⟨e, goingLeft s.last_mid e.mid, goingRight s.last_mid e.mid⟩)
      else (s, none)
    | some _, none => (s, none)
    | none, _ => (s, none)

/-! ## Gesture consumer (`src/DepthDesktop/app/app.py`, `DesktopApp`) -/

/-- The `DISABLE_HEAD_NAV` module constant of `app.py`. -/
def DISABLE_HEAD_NAV : Bool := false

/-- The externally visible action taken by `handle_tracker_update`. -/
inductive AppAction where
  | nextCard : AppAction
  | prevCard : AppAction
  | launchApp : ℤ → AppAction
  | quitApp : AppAction
deriving DecidableEq

/-- The consumer state touched by `handle_tracker_update`: the cooldown expiry
`invalidTime` (milliseconds), the carousel index and the number of apps. -/
structure AppState where
  invalidTime : ℤ
  current_index : ℤ
  numApps : ℤ
deriving DecidableEq

/-- `DesktopApp.handle_tracker_update` from `app.py`: gestures are acted on
only when `datetime.now() > self.invalidTime`; the direction checks form an
if/elif chain (`directionX == 1`, `directionX == -1`, `directionY == 1`,
`directionY == -1`); horizontal actions re-arm after 500 ms, launching after
800 ms. -/
def handle_tracker_update (s : AppState) (now directionX directionY : ℤ) :
    AppState × Option AppAction :=
  if now > s.invalidTime then
    if !DISABLE_HEAD_NAV then
      if directionX = 1 then
        ({ s with current_index := (s.current_index + 1) % s.numApps,
                  invalidTime := now + 500 }, some .nextCard)
      else if directionX = -1 then
        ({ s with current_index := (s.current_index - 1) % s.numApps,
                  invalidTime := now + 500 }, some .prevCard)
      else if directionY = 1 then
        ({ s with invalidTime := now + 800 }, some (.launchApp s.current_index))
      else if directionY = -1 then
        (s, some .quitApp)
      else (s, none)
    else (s, none)
  else (s, none)

/-- Modelled from the spec: the `direction_x` output of the tracker. The generator
`runTracker` that `app.py` imports from `faceTracking` is not part of the
sources here; per §4.4 of the specification a horizontal gesture is emitted
from the threshold crossings of the main loop (`goingLeft` / `goingRight`),
as a value in `{-1, 0, 1}`. -/
def dirXOf (last_mid mid_px : ℤ × ℤ) : ℤ :=
  if goingLeft last_mid mid_px then 1
  else if goingRight last_mid mid_px then -1
  else 0

/-! ## Helper lemmas about the validity test of the projector -/

theorem isclose_zero_iff (v : ℚ) : isclose 0 v = true ↔ v = 0 := by
  unfold isclose rel_tol abs_tol
  rw [decide_eq_true_eq, zero_sub, abs_neg, abs_zero,
    max_eq_right (abs_nonneg v), max_eq_left (by positivity)]
  constructor
  · intro h
    have hnn := abs_nonneg v
    have : |v| ≤ 0 := by linarith
    exact abs_eq_zero.mp (le_antisymm this hnn)
  · rintro rfl; simp

theorem isclose_one_iff (v : ℚ) :
    isclose 1 v = true ↔ |1 - v| ≤ rel_tol * max 1 |v| := by
  unfold isclose abs_tol
  rw [decide_eq_true_eq, abs_one, max_eq_left (by unfold rel_tol; positivity)]

theorem valid_iff (v : ℚ) :
    is_valid_normalized_value v = true ↔ 0 ≤ v ∧ v ≤ 1000000000 / 999999999 := by
  unfold is_valid_normalized_value
  rw [Bool.and_eq_true, Bool.or_eq_true, Bool.or_eq_true, decide_eq_true_eq,
    decide_eq_true_eq, isclose_zero_iff, isclose_one_iff]
  have hB : (1 : ℚ) ≤ 1000000000 / 999999999 := by norm_num
  constructor
  · rintro ⟨h1, h2⟩
    refine ⟨?_, ?_⟩
    · rcases h1 with h | h
      · linarith
      · rw [h]
    · rcases h2 with h | h
      · linarith
      · rcases le_or_lt v 1 with hv | hv
        · linarith
        · rw [abs_sub_comm, abs_of_pos (by linarith), abs_of_pos (by linarith),
            max_eq_right (le_of_lt hv)] at h
          unfold rel_tol at h
          linarith
  · rintro ⟨h0, hBv⟩
    refine ⟨?_, ?_⟩
    · rcases eq_or_lt_of_le h0 with h | h
      · exact Or.inr h.symm
      · exact Or.inl h
    · rcases lt_or_le v 1 with h | h
      · exact Or.inl h
      · refine Or.inr ?_
        rw [abs_sub_comm, abs_of_nonneg (by linarith), abs_of_nonneg h0,
          max_eq_right h]
        unfold rel_tol
        linarith

/-! ## C2 -/

/-- C2 counterexample: the normalized x-coordinate `-(2 ^ -53)` is within
machine epsilon (`2 ^ -52`) of the bound 0, yet the projector rejects it:
`math.isclose(0, value)` with the default `abs_tol = 0` accepts only exactly
0, so there is no tolerance below the lower bound. -/
theorem C2_counterexample :
    |(-(1 / 2 ^ 53) : ℚ) - 0| ≤ 1 / 2 ^ 52 ∧
      _normalized_to_pixel_coordinates (-(1 / 2 ^ 53)) (1 / 2) 640 480 = none := by
  constructor
  · rw [sub_zero, abs_neg, abs_of_nonneg (by positivity)]
    norm_num
  · have h : is_valid_normalized_value (-(1 / 2 ^ 53)) = false := by
      rw [Bool.eq_false_iff]
      intro h
      have := (valid_iff _).mp h
      norm_num at this
    unfold _normalized_to_pixel_coordinates
    rw [h]
    simp

/-- C2 (amended): for positive frame dimensions, projection returns a pixel
point iff both normalized coordinates lie in `[0, 10^9 / (10^9 - 1)]`:
below 0 there is no tolerance at all (`math.isclose(0, ·)` with `abs_tol = 0`
accepts only exactly 0), and above 1 the tolerance is the relative tolerance
`rel_tol = 1e-9` (values up to `1 / (1 - 1e-9)`), not machine epsilon. -/
theorem C2_validity (x y : ℚ) (w h : ℤ) (hw : 0 < w) (hh : 0 < h) :
    (_normalized_to_pixel_coordinates x y w h).isSome = true ↔
      (0 ≤ x ∧ x ≤ 1000000000 / 999999999) ∧
        (0 ≤ y ∧ y ≤ 1000000000 / 999999999) := by
  rw [← valid_iff, ← valid_iff]
  unfold _normalized_to_pixel_coordinates
  rcases hx : is_valid_normalized_value x <;> rcases hy : is_valid_normalized_value y <;>
    simp

/-- C2 witness: the amended rule applied at `(0.5, 0.5)` in a 640×480 frame. -/
theorem C2_witness :
    (_normalized_to_pixel_coordinates (1 / 2) (1 / 2) 640 480).isSome = true :=
  (C2_validity (1 / 2) (1 / 2) 640 480 (by decide) (by decide)).mpr
    ⟨⟨by norm_num, by norm_num⟩, ⟨by norm_num, by norm_num⟩⟩

/-! ## C3 -/

/-- C3: for normalized coordinates in `[0, 1]` and positive dimensions, the
projector returns `min(floor(n * d), d - 1)` per axis, which always lies in
`[0, d - 1]` and is strictly below `d`. -/
theorem C3_clamping (x y : ℚ) (w h : ℤ) (hx0 : 0 ≤ x) (hx1 : x ≤ 1)
    (hy0 : 0 ≤ y) (hy1 : y ≤ 1) (hw : 0 < w) (hh : 0 < h) :
    _normalized_to_pixel_coordinates x y w h =
      some (min ⌊x * (w : ℚ)⌋ (w - 1), min ⌊y * (h : ℚ)⌋ (h - 1)) ∧
    0 ≤ min ⌊x * (w : ℚ)⌋ (w - 1) ∧ min ⌊x * (w : ℚ)⌋ (w - 1) < w ∧
    0 ≤ min ⌊y * (h : ℚ)⌋ (h - 1) ∧ min ⌊y * (h : ℚ)⌋ (h - 1) < h := by
  have hB : (1 : ℚ) ≤ 1000000000 / 999999999 := by norm_num
  have hvx : is_valid_normalized_value x = true := (valid_iff x).mpr ⟨hx0, by linarith⟩
  have hvy : is_valid_normalized_value y = true := (valid_iff y).mpr ⟨hy0, by linarith⟩
  refine ⟨?_, ?_, ?_, ?_, ?_⟩
  · unfold _normalized_to_pixel_coordinates
    rw [hvx, hvy]
    rfl
  · refine le_min ?_ (by omega)
    exact Int.le_floor.mpr (by push_cast; positivity)
  · exact lt_of_le_of_lt (min_le_right _ _) (by omega)
  · refine le_min ?_ (by omega)
    exact Int.le_floor.mpr (by push_cast; positivity)
  · exact lt_of_le_of_lt (min_le_right _ _) (by omega)

/-- C3 witness: `project(1.0, 1.0, 100, 100) = (99, 99)`. -/
theorem C3_witness :
    _normalized_to_pixel_coordinates 1 1 100 100 = some (99, 99) := by
  have h := C3_clamping 1 1 100 100 (by norm_num) (by norm_num) (by norm_num)
    (by norm_num) (by decide) (by decide)
  rw [h.1]
  norm_num

/-! ## C5 -/

/-- C5: for any run of valid-frame midpoints whose consecutive x-deltas
(measured against `last_mid`, which is re-seeded to the current midpoint on
every valid frame regardless of any armed/cooling state) all stay within the
15-pixel threshold, no horizontal gesture flag is ever raised — slow drift of
unbounded cumulative size never fires. -/
theorem C5_leaky_debounce (last_mid : ℤ × ℤ) (mids : List (ℤ × ℤ))
    (h : smallDeltas last_mid mids = true) :
    ∀ e ∈ runMids last_mid mids, e = (false, false) := by
  induction mids generalizing last_mid with
  | nil => intro e he; simp [runMids] at he
  | cons mid mids ih =>
    rw [smallDeltas, Bool.and_eq_true, decide_eq_true_eq] at h
    intro e he
    rw [runMids] at he
    rcases List.mem_cons.mp he with rfl | hmem
    · obtain ⟨hl, hr⟩ := abs_le.mp h.1
      simp only [goingLeft, goingRight, Prod.mk.injEq, decide_eq_false_iff_not, not_lt]
      omega
    · exact ih mid h.2 e hmem

/-- C5 witness: 100 frames drifting right by 10 px per frame (1000 px of
cumulative drift) starting from `last_mid = (0, 0)` satisfy the delta bound
and emit zero horizontal gestures. -/
theorem C5_witness :
    smallDeltas (0, 0) ((List.range 100).map fun i => (10 * ((i : ℤ) + 1), 0)) = true ∧
      ∀ e ∈ runMids (0, 0) ((List.range 100).map fun i => (10 * ((i : ℤ) + 1), 0)),
        e = (false, false) := by
  have hs : smallDeltas (0, 0) ((List.range 100).map fun i => (10 * ((i : ℤ) + 1), 0)) = true := by
    decide
  exact ⟨hs, C5_leaky_debounce _ _ hs⟩

/-! ## C7 -/

/-- C7 (evaluation at the failing input): contrary to the claim, the main
loop has no special case for the first valid frame. With the initial
`last_mid = (0, 0)` sentinel and a first midpoint of `(100, 100)`, the
threshold check `last_mid[0] - mid_px[0] < -15` fires against the origin and
a spurious "Going right" gesture is emitted on the very first valid frame. -/
theorem C7_first_frame_spurious :
    runMids (0, 0) [(100, 100)] = [(false, true)] := by decide

/-! ## C9 -/

/-- C9: on any single frame the two horizontal threshold conditions
`last_mid.x - mid.x > 15` and `last_mid.x - mid.x < -15` are mutually
exclusive — no frame can signal both left and right. -/
theorem C9_directions_exclusive (last_mid mid_px : ℤ × ℤ) :
    (goingLeft last_mid mid_px && goingRight last_mid mid_px) = false := by
  simp only [goingLeft, goingRight, Bool.and_eq_false_iff, decide_eq_false_iff_not, not_lt]
  omega

/-! ## Helper lemmas about `pixel_distance` -/

theorem pixel_distance_golden : pixel_distance (100, 200) (200, 200) = 100 := by
  unfold pixel_distance
  norm_num
  rw [show (10000 : ℝ) = 100 ^ 2 by norm_num, Real.sqrt_sq (by norm_num : (0 : ℝ) ≤ 100)]

theorem pixel_distance_self (p : ℤ × ℤ) : pixel_distance p p = 0 := by
  unfold pixel_distance
  simp

/-! ## C1 -/

/-- C1: for distinct pupil pixel positions with positive inter-pupil
distance, the pose estimator computes exactly the documented formulas:
`raw_distance = 327 / pixel_distance`, the truncating integer midpoint,
`angleX = 35 - (mid_x / w) * 70`, `angleY = 22 - (mid_y / h) * 44`, the
radians conversions, `corrected_depth = raw / (cos(rad_x) * cos(rad_y))`,
`real_x = -corrected * tan(rad_x)`, `real_y = corrected * tan(rad_y)`,
`real_z = corrected`; and at the golden input `left=(100,200)`,
`right=(200,200)` in a 640×480 frame, `pixel_distance = 100` and
`raw_distance = 3.27`. -/
theorem C1_pose_formulas :
    (∀ (left_px right_px : ℤ × ℤ) (width height : ℤ),
      left_px ≠ right_px → 0 < pixel_distance left_px right_px →
      (estimate left_px right_px width height).raw_distance =
          327 / pixel_distance left_px right_px ∧
        (estimate left_px right_px width height).mid =
          (Int.tdiv (left_px.1 + right_px.1) 2, Int.tdiv (left_px.2 + right_px.2) 2) ∧
        (estimate left_px right_px width height).angleX =
          35 - (((estimate left_px right_px width height).mid.1 : ℝ) / (width : ℝ)) * 70 ∧
        (estimate left_px right_px width height).angleY =
          22 - (((estimate left_px right_px width height).mid.2 : ℝ) / (height : ℝ)) * 44 ∧
        (estimate left_px right_px width height).rad_x =
          (estimate left_px right_px width height).angleX * (Real.pi / 180) ∧
        (estimate left_px right_px width height).rad_y =
          (estimate left_px right_px width height).angleY * (Real.pi / 180) ∧
        (estimate left_px right_px width height).corrected_z_depth =
          (estimate left_px right_px width height).raw_distance /
            (Real.cos (estimate left_px right_px width height).rad_x *
              Real.cos (estimate left_px right_px width height).rad_y) ∧
        (estimate left_px right_px width height).real_x =
          -((estimate left_px right_px width height).corrected_z_depth *
            Real.tan (estimate left_px right_px width height).rad_x) ∧
        (estimate left_px right_px width height).real_y =
          (estimate left_px right_px width height).corrected_z_depth *
            Real.tan (estimate left_px right_px width height).rad_y ∧
        (estimate left_px right_px width height).real_z =
          (estimate left_px right_px width height).corrected_z_depth) ∧
      pixel_distance (100, 200) (200, 200) = 100 ∧
      (estimate (100, 200) (200, 200) 640 480).raw_distance = 3.27 := by
  refine ⟨fun left_px right_px width height _ _ => ?_, pixel_distance_golden, ?_⟩
  · refine ⟨rfl, rfl, rfl, rfl, rfl, rfl, rfl, ?_, rfl, rfl⟩
    show -1 * (estimate left_px right_px width height).corrected_z_depth *
        Real.tan (estimate left_px right_px width height).rad_x =
      -((estimate left_px right_px width height).corrected_z_depth *
        Real.tan (estimate left_px right_px width height).rad_x)
    rw [neg_one_mul, neg_mul]
  · show 327 / pixel_distance (100, 200) (200, 200) = 3.27
    rw [pixel_distance_golden]
    norm_num

/-- C1 witness: the formula equations applied at the golden input. -/
theorem C1_witness :
    (estimate (100, 200) (200, 200) 640 480).raw_distance =
      327 / pixel_distance (100, 200) (200, 200) :=
  (C1_pose_formulas.1 (100, 200) (200, 200) 640 480 (by decide)
    (by rw [pixel_distance_golden]; norm_num)).1

/-! ## C4 -/

/-- C4: when both pupils project to the same pixel point, the inter-pupil
distance is zero and the frame is skipped: no division is attempted, no pose
is produced, and the state is unchanged. -/
theorem C4_coincident_pupils (s : TrackState) (w h : ℤ) (f : Face) (p : ℤ × ℤ)
    (hr : _normalized_to_pixel_coordinates f.right_pupil.x f.right_pupil.y w h = some p)
    (hl : _normalized_to_pixel_coordinates f.left_pupil.x f.left_pupil.y w h = some p) :
    frameStep w h s (some f) = (s, none) := by
  have hz : pixel_distance p p = 0 := pixel_distance_self p
  simp [frameStep, hr, hl, hz]

/-- C4 witness: both pupils at normalized `(0.5, 0.5)` in a 640×480 frame
project to pixel `(320, 240)`, and the frame is skipped. -/
theorem C4_witness :
    frameStep 640 480 ⟨(0, 0)⟩ (some ⟨⟨1 / 2, 1 / 2⟩, ⟨1 / 2, 1 / 2⟩⟩) = (⟨(0, 0)⟩, none) := by
  have hv : _normalized_to_pixel_coordinates (1 / 2) (1 / 2) 640 480 = some (320, 240) := by
    unfold _normalized_to_pixel_coordinates
    rw [(valid_iff _).mpr ⟨by norm_num, by norm_num⟩]
    rw [show ⌊(1 / 2 : ℚ) * (640 : ℤ)⌋ = 320 by norm_num,
      show ⌊(1 / 2 : ℚ) * (480 : ℤ)⌋ = 240 by norm_num]
    decide
  exact C4_coincident_pupils ⟨(0, 0)⟩ 640 480 _ (320, 240) hv hv

/-! ## C8 -/

/-- C8: a frame with no detected face, or with an invalid pupil projection,
produces no update and leaves the tracking state (`last_mid`) unchanged — a
pure frame-skip, not a state reset, and nothing is raised. -/
theorem C8_frame_skip :
    (∀ (w h : ℤ) (s : TrackState), frameStep w h s none = (s, none)) ∧
      (∀ (w h : ℤ) (s : TrackState) (f : Face),
        _normalized_to_pixel_coordinates f.right_pupil.x f.right_pupil.y w h = none ∨
          _normalized_to_pixel_coordinates f.left_pupil.x f.left_pupil.y w h = none →
        frameStep w h s (some f) = (s, none)) := by
  refine ⟨fun w h s => rfl, fun w h s f hf => ?_⟩
  rcases hf with hf | hf
  · simp [frameStep, hf]
  · rcases hr : _normalized_to_pixel_coordinates f.right_pupil.x f.right_pupil.y w h with _ | p
    · simp [frameStep, hr]
    · simp [frameStep, hr, hf]

/-- C8 witness: a face whose right pupil has normalized x = -1 (out of range)
is skipped with the state untouched. -/
theorem C8_witness :
    frameStep 640 480 ⟨(7, 9)⟩ (some ⟨⟨-1, 1 / 2⟩, ⟨1 / 2, 1 / 2⟩⟩) = (⟨(7, 9)⟩, none) := by
  apply C8_frame_skip.2
  left
  have hinv : is_valid_normalized_value (-1) = false := by
    rw [Bool.eq_false_iff]
    intro hcon
    have := (valid_iff _).mp hcon
    norm_num at this
  unfold _normalized_to_pixel_coordinates
  rw [hinv]
  simp

/-! ## C10 -/

/-- C10: when an update arrives while armed carrying both a nonzero horizontal
direction and a nonzero vertical direction, only the horizontal carousel
action is performed — the if/elif chain is evaluated horizontal-first, so the
vertical gesture (launch or quit) is dropped for that update. -/
theorem C10_horizontal_first (s : AppState) (now dx dy : ℤ)
    (harm : s.invalidTime < now) (hdx : dx = 1 ∨ dx = -1) (hdy : dy = 1 ∨ dy = -1) :
    handle_tracker_update s now dx dy =
      ({ s with current_index := (s.current_index + dx) % s.numApps,
                invalidTime := now + 500 },
       some (if dx = 1 then AppAction.nextCard else AppAction.prevCard)) := by
  rcases hdx with rfl | rfl
  · simp [handle_tracker_update, DISABLE_HEAD_NAV, harm]
  · norm_num [handle_tracker_update, DISABLE_HEAD_NAV, harm, sub_eq_add_neg]

/-- C10 witness: armed state, `directionX = 1` and `directionY = 1`
simultaneously — the carousel advances and nothing is launched. -/
theorem C10_witness :
    handle_tracker_update ⟨0, 0, 4⟩ 1 1 1 = (⟨501, 1, 4⟩, some AppAction.nextCard) := by
  have h := C10_horizontal_first ⟨0, 0, 4⟩ 1 1 1 (by decide) (Or.inl rfl) (Or.inl rfl)
  simpa using h

/-! ## C6 -/

/-- C6: (a) while "now" is before the cooldown expiry `invalidTime`, no
gesture is acted on and the consumer state is unchanged, regardless of the
directions carried by the update; (b) a 20-pixel single-frame midpoint jump
while armed yields a nonzero horizontal direction and exactly one carousel
action, sets the cooldown expiry to `now + 500` ms, and an identical jump on
the next frame produces no further action while "now" is still inside the
cooldown window. -/
theorem C6_cooldown :
    (∀ (s : AppState) (now dx dy : ℤ), now < s.invalidTime →
      handle_tracker_update s now dx dy = (s, none)) ∧
      (∀ (s : AppState) (now1 now2 : ℤ) (m0 m1 m2 : ℤ × ℤ) (dy1 dy2 : ℤ),
        s.invalidTime < now1 →
        m1.1 - m0.1 = 20 →
        m2.1 - m1.1 = 20 →
        now2 < now1 + 500 →
        dirXOf m0 m1 ≠ 0 ∧
          handle_tracker_update s now1 (dirXOf m0 m1) dy1 =
            ({ s with current_index := (s.current_index - 1) % s.numApps,
                      invalidTime := now1 + 500 }, some AppAction.prevCard) ∧
          handle_tracker_update
              ({ s with current_index := (s.current_index - 1) % s.numApps,
                        invalidTime := now1 + 500 }) now2 (dirXOf m1 m2) dy2 =
            ({ s with current_index := (s.current_index - 1) % s.numApps,
                      invalidTime := now1 + 500 }, none)) := by
  constructor
  · intro s now dx dy hcool
    have hns : ¬ (s.invalidTime < now) := by omega
    simp [handle_tracker_update, hns]
  · intro s now1 now2 m0 m1 m2 dy1 dy2 harm hj1 hj2 hcool
    have e1 : m0.1 - m1.1 = -20 := by omega
    have e2 : m1.1 - m2.1 = -20 := by omega
    have hd1 : dirXOf m0 m1 = -1 := by
      norm_num [dirXOf, goingLeft, goingRight, e1]
    have hd2 : dirXOf m1 m2 = -1 := by
      norm_num [dirXOf, goingLeft, goingRight, e2]
    have hns : ¬ ((now1 + 500 : ℤ) < now2) := by omega
    refine ⟨by rw [hd1]; decide, ?_, ?_⟩
    · rw [hd1]
      norm_num [handle_tracker_update, DISABLE_HEAD_NAV, harm]
    · rw [hd2]
      simp [handle_tracker_update, hns]

/-- C6 witness: armed at `invalidTime = 0`, a jump from midpoint `(0,0)` to
`(20,0)` at `now = 10` fires one action and re-arms at 510; the identical
jump to `(40,0)` at `now = 300` is suppressed. -/
theorem C6_witness :
    handle_tracker_update ⟨0, 5, 4⟩ 10 (dirXOf (0, 0) (20, 0)) 0 =
        (⟨510, (5 - 1) % 4, 4⟩, some AppAction.prevCard) ∧
      handle_tracker_update ⟨510, (5 - 1) % 4, 4⟩ 300 (dirXOf (20, 0) (40, 0)) 0 =
        (⟨510, (5 - 1) % 4, 4⟩, none) := by
  have h := C6_cooldown.2 ⟨0, 5, 4⟩ 10 300 (0, 0) (20, 0) (40, 0) 0 0
    (by decide) (by decide) (by decide) (by decide)
  exact ⟨h.2.1, h.2.2⟩
